import Mathlib

/-!
# Verification of the Architex analysis pipeline

A shallow embedding of the core analysis pipeline of the Architex repository
(`architex/core/`): element-id generation and the per-language parser registry
(`parsers.py`, `analyzer.py`), service-boundary scoring (`service_detector.py`,
`graph_builder.py`), anti-pattern detection, microservice filtering, the
maintainability metric (`metrics.py`), and cycle/SCC reporting
(`dependency_analyzer.py`).

Python strings are modelled as Lean `String`, Python `float` score arithmetic
as `ℚ` (every concrete value appearing in the statements below is a small
dyadic rational, hence exactly representable as a Python float, so no
statement depends on rounding), and fallible code as `Except`/total functions
with explicit failure flags.
-/

namespace Architex

/-! ## Decimal rendering of the element counter

`BaseParser.generate_element_id` renders `self.element_counter` with an
f-string, i.e. as the decimal numeral of the counter.  `natDigits n` is the
list of decimal digit characters of `n` (most significant first), exactly the
digits Python prints.  It is implemented with a fuel parameter (fuel `n + 1`
always suffices since `n / 10 < n` for `n ≥ 10`) so the definition reduces by
`decide`/`rfl` on concrete inputs. -/

def natDigitsAux : Nat → Nat → List Char
  | 0, _ => []
  | fuel + 1, n =>
    if n < 10 then [Nat.digitChar n]
    else natDigitsAux fuel (n / 10) ++ [Nat.digitChar (n % 10)]

/-- The decimal digit characters of `n`, most significant digit first. -/
def natDigits (n : Nat) : List Char :=
  natDigitsAux (n + 1) n

/-- Decimal numeral of `n` as a string (the text Python's f-string interpolation
produces for an `int`). -/
def natRepr (n : Nat) : String :=
  ⟨natDigits n⟩

/-! ## Element-id generation and the analyzer parse loop

Model of `BaseParser.generate_element_id` (parsers.py:52-55) and the parse
loop of `CodebaseAnalyzer.analyze` (analyzer.py:29-47).  The `ParserRegistry`
holds one long-lived parser instance per language (python, javascript, java),
each with its own mutable `element_counter` initialised to `0` when the
analyzer is constructed and never reset.  The analyzer state is therefore one
counter per language.  A file's content is abstracted to the sequence of
declaration nodes its parser turns into elements, in emission order. -/

inductive Lang where
  | python
  | javascript
  | java
  deriving DecidableEq

/-- `BaseParser.generate_element_id`: increments the parser's
`element_counter`, then renders
`f"{file_path.stem}_{element_type}_{element_name}_{self.element_counter}"`.
`counter` is the counter value before the call; the second component is the
counter value after it. -/
def generate_element_id (stem element_name element_type : String) (counter : Nat) :
    String × Nat :=
  (stem ++ "_" ++ element_type ++ "_" ++ element_name ++ "_" ++ natRepr (counter + 1),
   counter + 1)

/-- One declaration node of a source file, abstracted to what the id generator
consumes: the `element_type` tag and the `element_name` passed to
`generate_element_id` (e.g. `("class", node.name)` for an `ast.ClassDef`). -/
structure Decl where
  element_type : String
  element_name : String
  deriving DecidableEq

/-- A source file, routed to the parser of `lang` by its extension.
`parse_ok` is `false` when reading the file or `ast.parse` raises, in which
case the parser's `except` branch returns before any element is created, so
nothing is emitted and the counter is untouched. -/
structure SourceFile where
  stem : String
  lang : Lang
  parse_ok : Bool
  decls : List Decl
  deriving DecidableEq

/-- Type tag of the first element every parser emits for a file:
`PythonParser` and `JavaScriptParser` create a `"module"` element,
`JavaParser` a `"file"` element, each named after the file stem. -/
def rootElementType : Lang → String
  | .python => "module"
  | .javascript => "module"
  | .java => "file"

/-- The projection of a `CodeElement` relevant to the id claims: its `id` and
`language` fields. -/
structure AnalyzedElement where
  id : String
  language : Lang
  deriving DecidableEq

/-- Emit one element per declaration node, threading the parser's counter
through `generate_element_id`. -/
def emitElements (stem : String) (lang : Lang) :
    List Decl → Nat → List AnalyzedElement × Nat
  | [], c => ([], c)
  | d :: ds, c =>
    let p := generate_element_id stem d.element_name d.element_type c
    let rest := emitElements stem lang ds p.2
    ({ id := p.1, language := lang } :: rest.1, rest.2)

/-- `parse_file` of the parser registered for `f.lang`: on success the root
(`module`/`file`) element followed by one element per declaration; on a parse
error the `except` branch yields no elements and leaves the counter alone. -/
def parse_file (f : SourceFile) (c : Nat) : List AnalyzedElement × Nat :=
  if f.parse_ok then
    emitElements f.stem f.lang (⟨rootElementType f.lang, f.stem⟩ :: f.decls) c
  else ([], c)

/-- Counter state of a freshly constructed `CodebaseAnalyzer` (each parser's
`element_counter` is `0`). -/
def initialCounters : Lang → Nat := fun _ => 0

/-- The parse loop of `CodebaseAnalyzer.analyze` (analyzer.py:42-47): parse
each file with the parser registered for it, extending `all_elements`;
parsers keep their counters between files (and between runs). -/
def analyzeFiles : (Lang → Nat) → List SourceFile → List AnalyzedElement × (Lang → Nat)
  | s, [] => ([], s)
  | s, f :: fs =>
    let p := parse_file f (s f.lang)
    let rest := analyzeFiles (Function.update s f.lang p.2) fs
    (p.1 ++ rest.1, rest.2)

/-- `CodebaseAnalyzer.analyze` (analyzer.py:29-47): raises
`ValueError("Codebase path does not exist: ...")` before any extraction when
the root path is missing; otherwise runs the parse loop and returns a result.
Per-file parse errors are already absorbed inside `parse_file`
(`_parse_file`, analyzer.py:111-123, additionally catches and returns `[]`). -/
def CodebaseAnalyzer.analyze (path_exists : Bool) (counters : Lang → Nat)
    (files : List SourceFile) :
    Except String (List AnalyzedElement × (Lang → Nat)) :=
  if path_exists then .ok (analyzeFiles counters files)
  else .error "Codebase path does not exist"

/-! ### The counter embedded in a generated id

`generate_element_id` ends every id with `"_"` followed by the decimal
numeral of the counter, and the numeral contains no underscore, so the
trailing run of non-underscore characters of an id recovers the counter. -/

/-- The maximal run of non-underscore characters at the end of a string
(reversed).  For a generated id this is the reversed decimal numeral of the
counter value used for it. -/
def counterChars (s : String) : List Char :=
  s.data.reverse.takeWhile (fun c => c != '_')

/-! ### Counter bookkeeping of a run

Within one run, the parser for language `ℓ` consumes the consecutive counter
values `s ℓ + 1, …, s ℓ + K` where `s` is the counter state at the start of
the run and `K` the number of elements that parser emits. -/

/-- Reversed decimal numeral of a counter value; `counterChars` of a generated
id equals `counterTag` of the counter used for it. -/
def counterTag (k : Nat) : List Char :=
  (natDigits k).reverse

/-! ## Claims C1, C2, C3 -/

/-- Two files with the same stem routed to different parsers: `foo.py` and
`foo.js`.  Each parser starts at counter `0`, so both emit the id
`"foo_module_foo_1"` for their module element. -/
def collisionFiles : List SourceFile :=
  [{ stem := "foo", lang := .python, parse_ok := true, decls := [] },
   { stem := "foo", lang := .javascript, parse_ok := true, decls := [] }]

/-- A one-file tree used to exhibit the counter carry-over between two
`analyze` calls on the same analyzer instance. -/
def rerunFiles : List SourceFile :=
  [{ stem := "f", lang := .python, parse_ok := true, decls := [] }]

/-! ## Unified code model (models.py)

`CodeElement` and `Relationship` restricted to the fields the verified code
paths read; the remaining fields (language, line numbers, metadata, …) and
the unused members of the `ElementType` enumeration are never consulted by
the scoring, grouping, anti-pattern or dependency-analysis code under
verification. -/

inductive ElementType where
  | MODULE
  | PACKAGE
  | FILE
  | CLASS
  | INTERFACE
  | ENUM
  | STRUCT
  | FUNCTION
  | METHOD
  | VARIABLE
  | FIELD
  | IMPORT
  | REQUIRE
  deriving DecidableEq

structure CodeElement where
  id : String
  name : String
  type : ElementType
  file_path : Option String
  deriving DecidableEq

structure Relationship where
  source_id : String
  target_id : String
  deriving DecidableEq

/-! ## Service scoring: `ServiceDetector` (service_detector.py) -/

namespace ServiceDetector

/-- `ServiceDetector._calculate_cohesion` (service_detector.py:223-237):
count of relationships with both endpoints in the group, divided by
`n·(n−1)/2`, capped at `1.0`; a group of size ≤ 1 scores `1.0`. -/
def calculate_cohesion (elements : List CodeElement)
    (relationships : List Relationship) : ℚ :=
  if elements.length ≤ 1 then 1
  else
    let element_ids := elements.map (fun e => e.id)
    let internal_relationships := relationships.countP
      (fun rel => decide (rel.source_id ∈ element_ids ∧ rel.target_id ∈ element_ids))
    let total_possible_relationships : ℚ :=
      (elements.length : ℚ) * ((elements.length : ℚ) - 1) / 2
    min 1 (if total_possible_relationships > 0 then
      (internal_relationships : ℚ) / total_possible_relationships
    else 0)

/-- `ServiceDetector._calculate_coupling` (service_detector.py:239-252):
count of relationships with exactly one endpoint in the group, divided by the
group size, capped at `1.0`; the empty group scores `0.0`. -/
def calculate_coupling (elements : List CodeElement)
    (relationships : List Relationship) : ℚ :=
  if elements.length = 0 then 0
  else
    let element_ids := elements.map (fun e => e.id)
    let external_relationships := relationships.countP
      (fun rel => decide ((rel.source_id ∈ element_ids ∧ rel.target_id ∉ element_ids) ∨
        (rel.target_id ∈ element_ids ∧ rel.source_id ∉ element_ids)))
    min 1 ((external_relationships : ℚ) / (elements.length : ℚ))

end ServiceDetector

/-! ## Dependency graph: `DependencyGraph` (graph_builder.py)

The graph is an `nx.DiGraph`: insertion-ordered node list and edge list with
duplicate node/edge insertions collapsed, as `add_node`/`add_edge` behave. -/

structure NxDiGraph where
  nodes : List String
  edges : List (String × String)
  deriving DecidableEq

namespace NxDiGraph

/-- `nx.DiGraph()` -/
def empty : NxDiGraph := ⟨[], []⟩

/-- `G.add_node(n)` (attributes are irrelevant to the verified claims). -/
def addNode (g : NxDiGraph) (n : String) : NxDiGraph :=
  if n ∈ g.nodes then g else { g with nodes := g.nodes ++ [n] }

/-- `G.add_edge(u, v)`: adds missing endpoints as nodes, keeps one edge per
ordered pair. -/
def addEdge (g : NxDiGraph) (u v : String) : NxDiGraph :=
  let g := (g.addNode u).addNode v
  if (u, v) ∈ g.edges then g else { g with edges := g.edges ++ [(u, v)] }

/-- `G.neighbors(node)`: the successors of a node, each once. -/
def neighbors (g : NxDiGraph) (n : String) : List String :=
  (g.edges.filter (fun e => decide (e.1 = n))).map (fun e => e.2)

end NxDiGraph

namespace DependencyGraph

/-- `DependencyGraph._calculate_cohesion` (graph_builder.py:150-162): counts
directed edges internal to the community via successor lists and divides by
`n·(n−1)` — twice the denominator of the `ServiceDetector` variant — and
applies no `min(1.0, ·)` cap. -/
def calculate_cohesion (community : List String) (g : NxDiGraph) : ℚ :=
  if community.length ≤ 1 then 1
  else
    let internal_edges := (community.map (fun node =>
      (g.neighbors node).countP (fun m => decide (m ∈ community)))).sum
    let total_possible_edges : ℚ :=
      (community.length : ℚ) * ((community.length : ℚ) - 1)
    if total_possible_edges > 0 then (internal_edges : ℚ) / total_possible_edges
    else 0

/-- `DependencyGraph._calculate_coupling` (graph_builder.py:164-177): the
fraction of out-edges of community nodes whose head lies outside the
community; `0.0` when community nodes have no out-edges at all.  Incoming
edges are not considered. -/
def calculate_coupling (community : List String) (g : NxDiGraph) : ℚ :=
  if community.length = 0 then 0
  else
    let total_edges := (community.map (fun node => (g.neighbors node).length)).sum
    let external_edges := (community.map (fun node =>
      (g.neighbors node).countP (fun m => decide (m ∉ community)))).sum
    if (total_edges : ℚ) > 0 then (external_edges : ℚ) / (total_edges : ℚ)
    else 0

end DependencyGraph

/-! ## Graph algorithms

Executable embeddings of the two networkx algorithms the pipeline relies on,
by their documented specifications: `nx.strongly_connected_components`
(maximal sets of mutually reachable nodes) and `nx.simple_cycles` (all
elementary cycles, each reported exactly once up to rotation; we canonicalise
a cycle by starting it at its smallest node). -/

namespace NxDiGraph

/-- One breadth step: a set of nodes together with all their successors. -/
def expandOnce (g : NxDiGraph) (S : List String) : List String :=
  (S ++ S.flatMap g.neighbors).dedup

def expandN (g : NxDiGraph) : Nat → List String → List String
  | 0, S => S
  | n + 1, S => expandN g n (expandOnce g S)

/-- Nodes reachable from `u` (including `u` itself); iterating the one-step
expansion `|nodes|` times reaches the fixpoint on any graph. -/
def reachable (g : NxDiGraph) (u : String) : List String :=
  expandN g g.nodes.length [u]

def mutuallyReach (g : NxDiGraph) (u v : String) : Bool :=
  decide (v ∈ reachable g u) && decide (u ∈ reachable g v)

/-- `nx.strongly_connected_components(G)`: for each node, the nodes mutually
reachable with it (in node order), duplicate components collapsed. -/
def stronglyConnectedComponents (g : NxDiGraph) : List (List String) :=
  (g.nodes.map (fun v => g.nodes.filter (fun u => mutuallyReach g u v))).dedup

/-- Does the node sequence `c` trace a closed directed walk (consecutive
edges plus the closing edge from the last node back to the first)? -/
def isClosedWalk (g : NxDiGraph) : List String → Bool
  | [] => false
  | v :: rest =>
    ((v :: rest).zip (rest ++ [v])).all (fun e => decide (e ∈ g.edges))

/-- An elementary cycle: a nonempty duplicate-free closed directed walk. -/
def isElementaryCycle (g : NxDiGraph) (c : List String) : Bool :=
  decide c.Nodup && isClosedWalk g c

/-- Canonical representative of a cycle's rotation class: it starts at the
member that occurs earliest in the graph's node list. -/
def isCanonicalRotation (g : NxDiGraph) : List String → Bool
  | [] => false
  | v :: rest =>
    match g.nodes.filter (fun n => decide (n ∈ v :: rest)) with
    | [] => false
    | w :: _ => decide (v = w)

/-- All ways to insert `x` into a list (used to enumerate permutations by a
computation the kernel can evaluate). -/
def insertEverywhere (x : String) : List String → List (List String)
  | [] => [[x]]
  | y :: ys => (x :: y :: ys) :: (insertEverywhere x ys).map (fun l => y :: l)

/-- All permutations of a list (structurally recursive). -/
def allPerms : List String → List (List String)
  | [] => [[]]
  | x :: xs => (allPerms xs).flatMap (insertEverywhere x)

/-- All sublists of a list (structurally recursive). -/
def allSublists : List String → List (List String)
  | [] => [[]]
  | x :: xs => allSublists xs ++ (allSublists xs).map (fun l => x :: l)

/-- `nx.simple_cycles(G)`: every elementary cycle, reported once (here in its
canonical rotation): enumerate every permutation of every subset of the node
list and keep the duplicate-free closed walks that start at their smallest
node. -/
def simpleCycles (g : NxDiGraph) : List (List String) :=
  ((allSublists g.nodes).flatMap allPerms).filter
    (fun c => isElementaryCycle g c && isCanonicalRotation g c)

end NxDiGraph

/-! ## Service boundaries from the graph builder -/

/-- A `ServiceBoundary` as filled in by
`DependencyGraph.detect_service_boundaries`: name, member ids and the two
scores (its uuid and the constant default type are irrelevant here). -/
structure GraphServiceBoundary where
  name : String
  elements : List String
  cohesion_score : ℚ
  coupling_score : ℚ
  deriving DecidableEq

/-- `DependencyGraph.detect_service_boundaries` (graph_builder.py:116-137),
with the communities taken from the deterministic fallback arm of
`_detect_communities` (graph_builder.py:139-148), i.e. the strongly connected
components: the primary arm calls `nx.community.louvain_communities` without
a seed, which is randomized and has no deterministic semantics to embed.
Each community `i` becomes a boundary named `f"Service_{i+1}"` scored by
`DependencyGraph._calculate_cohesion`/`_calculate_coupling`. -/
def DependencyGraph.detect_service_boundaries (g : NxDiGraph) :
    List GraphServiceBoundary :=
  (NxDiGraph.stronglyConnectedComponents g).enum.map (fun p =>
    { name := "Service_" ++ natRepr (p.1 + 1),
      elements := p.2,
      cohesion_score := DependencyGraph.calculate_cohesion p.2 g,
      coupling_score := DependencyGraph.calculate_coupling p.2 g })

/-! ## Claims C4, C5 -/

/-- The graph of a three-element dependency triangle `A→B→C→A` (nodes
inserted by `add_element`, edges by `add_relationship`). -/
def triangleGraph : NxDiGraph :=
  ((((((NxDiGraph.empty.addNode "A").addNode "B").addNode "C").addEdge
    "A" "B").addEdge "B" "C").addEdge "C" "A")

/-- Elements and relationships of a two-class group with one internal
relationship, used to witness `cohesion_score_formulas`. -/
def pairElements : List CodeElement :=
  [{ id := "x", name := "X", type := .CLASS, file_path := some "x.py" },
   { id := "y", name := "Y", type := .CLASS, file_path := some "y.py" }]

def pairRelationships : List Relationship :=
  [{ source_id := "x", target_id := "y" }]

/-- The graph with a two-node strongly connected component `{a,b}`
(`a→b→a`) plus an incoming edge `c→a` crossing its boundary. -/
def inflowGraph : NxDiGraph :=
  (((((NxDiGraph.empty.addNode "a").addNode "b").addNode "c").addEdge
    "a" "b").addEdge "b" "a").addEdge "c" "a"

/-- A relationship not touching `pairElements2` at all. -/
def strayRelationships : List Relationship :=
  [{ source_id := "p", target_id := "q" }]

/-! ## Metrics engine: `MetricsCalculator` (metrics.py) -/

namespace MetricsCalculator

/-- `getattr(element, 'complexity', 1)` — `CodeElement` declares no
`complexity` attribute, so the default `1` is always returned. -/
def complexity_attr (_e : CodeElement) : ℚ := 1

/-- `cyclomatic_complexity_avg` of `_calculate_complexity_metrics`
(metrics.py:175-186): total per-element complexity over the element count,
`0` for an empty element list. -/
def cyclomatic_complexity_avg (elements : List CodeElement) : ℚ :=
  if elements = [] then 0
  else (elements.map complexity_attr).sum / (elements.length : ℚ)

/-- `afferent_coupling_avg` of `_calculate_coupling_metrics`
(metrics.py:201-240): the `afferent_coupling` dict maps each `target_id`
occurring in a relationship to its incoming count, so the sum of its values
is the relationship count and its size is the number of distinct targets;
the average is `0` when there are no relationships. -/
def afferent_coupling_avg (relationships : List Relationship) : ℚ :=
  if relationships = [] then 0
  else (relationships.length : ℚ) /
    (((relationships.map (fun r => r.target_id)).dedup).length : ℚ)

/-- `efferent_coupling_avg` of `_calculate_coupling_metrics`: same with
`source_id`. -/
def efferent_coupling_avg (relationships : List Relationship) : ℚ :=
  if relationships = [] then 0
  else (relationships.length : ℚ) /
    (((relationships.map (fun r => r.source_id)).dedup).length : ℚ)

/-- The maintainability formula of `_calculate_maintainability_metrics`
(metrics.py:350-365): `max(0, 100 - (avg_complexity * 2 + avg_coupling * 3))`. -/
def maintainability_index_formula (avg_complexity avg_coupling : ℚ) : ℚ :=
  max 0 (100 - (avg_complexity * 2 + avg_coupling * 3))

/-- `_calculate_maintainability_metrics` (metrics.py:350-365):
`avg_complexity` is the cyclomatic average, `avg_coupling` the sum of the
afferent and efferent averages. -/
def calculate_maintainability_metrics (elements : List CodeElement)
    (relationships : List Relationship) : ℚ :=
  maintainability_index_formula (cyclomatic_complexity_avg elements)
    (afferent_coupling_avg relationships + efferent_coupling_avg relationships)

end MetricsCalculator

/-! ## Dependency analysis: `DependencyAnalyzer` (dependency_analyzer.py) -/

/-- The fields of the `DependencyGraph` pydantic model that
`DependencyAnalyzer.analyze` fills in. -/
structure DependencyGraphResult where
  nodes : List CodeElement
  edges : List Relationship
  cycles : List (List String)
  strongly_connected_components : List (List String)
  deriving DecidableEq

/-- The `nx.DiGraph` built by `DependencyAnalyzer.analyze`
(dependency_analyzer.py:15-35): one `add_node` per element, one `add_edge`
per relationship. -/
def buildNx (elements : List CodeElement) (relationships : List Relationship) : NxDiGraph :=
  relationships.foldl (fun g r => g.addEdge r.source_id r.target_id)
    (elements.foldl (fun g e => g.addNode e.id) NxDiGraph.empty)

/-- `DependencyAnalyzer.analyze`: build the graph, then report the elementary
cycles (`nx.simple_cycles`) and the strongly connected components. -/
def DependencyAnalyzer.analyze (elements : List CodeElement)
    (relationships : List Relationship) : DependencyGraphResult :=
  { nodes := elements,
    edges := relationships,
    cycles := NxDiGraph.simpleCycles (buildNx elements relationships),
    strongly_connected_components :=
      NxDiGraph.stronglyConnectedComponents (buildNx elements relationships) }

def triangleElements : List CodeElement :=
  [{ id := "A", name := "A", type := .CLASS, file_path := some "a.py" },
   { id := "B", name := "B", type := .CLASS, file_path := some "b.py" },
   { id := "C", name := "C", type := .CLASS, file_path := some "c.py" }]

def triangleRelationships : List Relationship :=
  [{ source_id := "A", target_id := "B" },
   { source_id := "B", target_id := "C" },
   { source_id := "C", target_id := "A" }]

/-! ## Service types, boundaries, anti-patterns, microservices
(service_detector.py) -/

inductive ServiceType where
  | API_SERVICE
  | DATA_SERVICE
  | BUSINESS_SERVICE
  | INFRASTRUCTURE_SERVICE
  | UTILITY_SERVICE
  | CONTROLLER
  | REPOSITORY
  | SERVICE_LAYER
  | DOMAIN_SERVICE
  | APPLICATION_SERVICE
  deriving DecidableEq

/-- A `ServiceBoundary` as produced by `ServiceDetector.detect_services`:
`element_count` is `metadata['element_count']`, always set by
`detect_services` to the group size. -/
structure ServiceBoundary where
  id : String
  name : String
  type : ServiceType
  elements : List String
  dependencies : List String
  cohesion_score : ℚ
  coupling_score : ℚ
  complexity_score : ℚ
  element_count : Nat
  deriving DecidableEq

/-- The entries `ServiceDetector.detect_anti_patterns` can emit, keyed by
their `'type'` field and the identifying data of each dict. -/
inductive AntiPattern where
  | god_object (element_id element_name : String) (method_count : Nat)
  | circular_dependency (element_ids : List String)
  | high_coupling (service_id service_name : String) (score : ℚ)
  deriving DecidableEq

/-- Number of `METHOD`-typed elements sharing `e`'s `file_path`
(service_detector.py:334-338). -/
def methodsInFileCount (elements : List CodeElement) (e : CodeElement) : Nat :=
  elements.countP (fun x =>
    decide (x.file_path = e.file_path ∧ x.type = ElementType.METHOD))

/-- God-object block of `detect_anti_patterns` (service_detector.py:331-347):
one entry per class element co-located with more than 20 method elements. -/
def god_object_entries (elements : List CodeElement) : List AntiPattern :=
  elements.filterMap (fun e =>
    if e.type = ElementType.CLASS then
      if 20 < methodsInFileCount elements e then
        some (AntiPattern.god_object e.id e.name (methodsInFileCount elements e))
      else none
    else none)

/-- Circular-dependency block (service_detector.py:349-357): one entry per
already-detected cycle, when a dependency graph is attached. -/
def circular_dependency_entries (dg : Option DependencyGraphResult) : List AntiPattern :=
  match dg with
  | none => []
  | some g => g.cycles.map (fun cycle => AntiPattern.circular_dependency cycle)

/-- High-coupling block (service_detector.py:359-368): one entry per service
boundary with coupling score above `0.8`. -/
def high_coupling_entries (boundaries : List ServiceBoundary) : List AntiPattern :=
  boundaries.filterMap (fun s =>
    if (8 : ℚ) / 10 < s.coupling_score then
      some (AntiPattern.high_coupling s.id s.name s.coupling_score)
    else none)

/-- The `AnalysisResult` fields `detect_anti_patterns` reads. -/
structure AnalysisResult where
  elements : List CodeElement
  dependency_graph : Option DependencyGraphResult
  service_boundaries : List ServiceBoundary
  deriving DecidableEq

/-- `ServiceDetector.detect_anti_patterns` (service_detector.py:327-370):
the three blocks in source order. -/
def ServiceDetector.detect_anti_patterns (result : AnalysisResult) : List AntiPattern :=
  god_object_entries result.elements ++
    circular_dependency_entries result.dependency_graph ++
    high_coupling_entries result.service_boundaries

/-- The identifying data of a god-object entry (and `none` on the other
entry kinds). -/
def AntiPattern.godObjectData : AntiPattern → Option (String × String × Nat)
  | .god_object i n k => some (i, n, k)
  | _ => none

/-- The scenario of C8: one class element plus 25 method-typed elements in
the same file `big.py`. -/
def godObjectScenario : AnalysisResult :=
  { elements :=
      { id := "Big", name := "Big", type := ElementType.CLASS, file_path := some "big.py" } ::
        (List.range 25).map (fun i =>
          { id := "m" ++ natRepr i, name := "m" ++ natRepr i, type := ElementType.METHOD,
            file_path := some "big.py" }),
    dependency_graph := none,
    service_boundaries := [] }

/-- `ServiceDetector.detect_microservices` (service_detector.py:304-325):
the `is_microservice` criteria of lines 313-319. -/
def ServiceDetector.is_microservice (service : ServiceBoundary) : Bool :=
  decide ((7 : ℚ) / 10 < service.cohesion_score) &&
  decide (service.coupling_score < (3 : ℚ) / 10) &&
  decide (5 < service.element_count) &&
  decide (0 < service.dependencies.length)

/-- The filtering loop of `detect_microservices`: qualifying boundaries are
kept, and each kept boundary has its `type` overwritten to `API_SERVICE`
before being appended. -/
def ServiceDetector.detect_microservices : List ServiceBoundary → List ServiceBoundary
  | [] => []
  | s :: rest =>
    if ServiceDetector.is_microservice s then
      { s with type := ServiceType.API_SERVICE } :: ServiceDetector.detect_microservices rest
    else ServiceDetector.detect_microservices rest

/-- A qualifying boundary (cohesion 1 > 0.7, coupling 0 < 0.3, 6 > 5
elements, one external dependency) whose type is `DATA_SERVICE`. -/
def repoBoundary : ServiceBoundary :=
  { id := "b1", name := "repository", type := ServiceType.DATA_SERVICE,
    elements := ["e1", "e2", "e3", "e4", "e5", "e6"],
    dependencies := ["x"],
    cohesion_score := 1, coupling_score := 0, complexity_score := 2,
    element_count := 6 }

/-! ## The Python parser's method check (parsers.py) -/

inductive PyNodeKind where
  | ClassDef
  | FunctionDef
  | Import
  | ImportFrom
  | Other
  deriving DecidableEq

/-- One node yielded by `ast.walk`, with the `parent` attribute read by
`getattr(node, 'parent', None)` modelled as `parentAttr` (`none` when the
attribute is absent — which is always the case for trees produced by
`ast.parse`, since nothing in the parser sets it). -/
structure PyWalkNode where
  kind : PyNodeKind
  name : String
  parentAttr : Option PyNodeKind
  deriving DecidableEq

/-- `PythonParser._is_method` (parsers.py:188-191): truthy only when the
`parent` attribute is present and is a `ClassDef`. -/
def PythonParser.is_method (node : PyWalkNode) : Bool :=
  match node.parentAttr with
  | some PyNodeKind.ClassDef => true
  | _ => false

/-- The element type `PythonParser._node_to_element` (parsers.py:104-186)
assigns to a walked node (`none` when the node yields no element). -/
def PythonParser.node_to_element_type (node : PyWalkNode) : Option ElementType :=
  match node.kind with
  | PyNodeKind.ClassDef => some ElementType.CLASS
  | PyNodeKind.FunctionDef =>
    some (if PythonParser.is_method node then ElementType.METHOD else ElementType.FUNCTION)
  | PyNodeKind.Import => some ElementType.IMPORT
  | PyNodeKind.ImportFrom => some ElementType.IMPORT
  | PyNodeKind.Other => none

/-- The element types `PythonParser.parse_file` emits for a successfully
parsed file: the module element first, then one element per walked node that
maps to one. -/
def PythonParser.parsed_element_types (walked : List PyWalkNode) : List ElementType :=
  ElementType.MODULE :: walked.filterMap PythonParser.node_to_element_type

/-! ## Theorems -/

theorem natDigitsAux_fuel_irrel (fuel₁ : Nat) :
    ∀ fuel₂ n, n < fuel₁ → n < fuel₂ →
      natDigitsAux fuel₁ n = natDigitsAux fuel₂ n := by
  induction fuel₁ with
  | zero => intro fuel₂ n h; omega
  | succ f ih =>
    intro fuel₂ n h1 h2
    cases fuel₂ with
    | zero => omega
    | succ f₂ =>
      simp only [natDigitsAux]
      by_cases hn : n < 10
      · simp [hn]
      · simp only [if_neg hn]
        have hdiv : n / 10 < n := Nat.div_lt_self (by omega) (by omega)
        rw [ih f₂ (n / 10) (by omega) (by omega)]

/-- Unfolding equation for `natDigits` that hides the fuel. -/
theorem natDigits_eq (n : Nat) :
    natDigits n =
      if n < 10 then [Nat.digitChar n]
      else natDigits (n / 10) ++ [Nat.digitChar (n % 10)] := by
  by_cases hn : n < 10
  · rw [if_pos hn]
    unfold natDigits
    simp [natDigitsAux, hn]
  · rw [if_neg hn]
    have h1 : natDigits n = natDigitsAux n (n / 10) ++ [Nat.digitChar (n % 10)] := by
      unfold natDigits
      simp [natDigitsAux, hn]
    rw [h1]
    congr 1
    exact natDigitsAux_fuel_irrel n (n / 10 + 1) (n / 10)
      (Nat.div_lt_self (by omega) (by omega)) (by omega)

theorem natDigits_ne_nil (n : Nat) : natDigits n ≠ [] := by
  rw [natDigits_eq]
  by_cases hn : n < 10 <;> simp [hn]

theorem digitChar_injOn : ∀ a < 10, ∀ b < 10, Nat.digitChar a = Nat.digitChar b → a = b := by
  decide

theorem natDigits_length_ge_two {n : Nat} (h : 10 ≤ n) : 2 ≤ (natDigits n).length := by
  rw [natDigits_eq, if_neg (by omega)]
  have := natDigits_ne_nil (n / 10)
  have : 1 ≤ (natDigits (n / 10)).length := by
    cases hl : natDigits (n / 10) with
    | nil => exact absurd hl this
    | cons a l => simp
  simp only [List.length_append, List.length_cons, List.length_nil]
  omega

theorem natDigits_injective : ∀ m n : Nat, natDigits m = natDigits n → m = n := by
  intro m
  induction m using Nat.strong_induction_on with
  | _ m ih =>
    intro n h
    by_cases hm : m < 10
    · by_cases hn : n < 10
      · rw [natDigits_eq, if_pos hm, natDigits_eq, if_pos hn] at h
        exact digitChar_injOn m hm n hn (by simpa using h)
      · exfalso
        have h2 := natDigits_length_ge_two (n := n) (by omega)
        rw [← h, natDigits_eq, if_pos hm] at h2
        simp at h2
    · by_cases hn : n < 10
      · exfalso
        have h2 := natDigits_length_ge_two (n := m) (by omega)
        rw [h, natDigits_eq, if_pos hn] at h2
        simp at h2
      · rw [natDigits_eq m, natDigits_eq n, if_neg hm, if_neg hn] at h
        have hconc := List.append_inj' h (by simp)
        have hdiv : m / 10 = n / 10 :=
          ih (m / 10) (Nat.div_lt_self (by omega) (by omega)) (n / 10) hconc.1
        have hmod : m % 10 = n % 10 := by
          have := hconc.2
          simp only [List.cons.injEq] at this
          exact digitChar_injOn _ (Nat.mod_lt _ (by omega)) _ (Nat.mod_lt _ (by omega)) this.1
        omega

theorem digitChar_mem_digits : ∀ k < 10, Nat.digitChar k ∈ ['0','1','2','3','4','5','6','7','8','9'] := by
  decide

theorem natDigits_mem_isDigit : ∀ n : Nat, ∀ c ∈ natDigits n, c ∈ ['0','1','2','3','4','5','6','7','8','9'] := by
  intro n
  induction n using Nat.strong_induction_on with
  | _ n ih =>
    intro c hc
    rw [natDigits_eq] at hc
    by_cases hn : n < 10
    · rw [if_pos hn] at hc
      simp only [List.mem_singleton] at hc
      subst hc
      exact digitChar_mem_digits n hn
    · rw [if_neg hn] at hc
      rcases List.mem_append.mp hc with h | h
      · exact ih (n / 10) (Nat.div_lt_self (by omega) (by omega)) c h
      · simp only [List.mem_singleton] at h
        subst h
        exact digitChar_mem_digits (n % 10) (Nat.mod_lt _ (by omega))

theorem natDigits_ne_underscore (n : Nat) : ∀ c ∈ natDigits n, c ≠ '_' := by
  intro c hc
  have := natDigits_mem_isDigit n c hc
  intro heq
  subst heq
  simp at this

theorem takeWhile_append_stop {p : Char → Bool} (a : List Char) (b : List Char)
    (ha : ∀ c ∈ a, p c = true) (hstop : p '_' = false) :
    (a ++ '_' :: b).takeWhile p = a := by
  induction a with
  | nil => simp [List.takeWhile, hstop]
  | cons x xs ih =>
    have hx : p x = true := ha x (by simp)
    simp only [List.cons_append, List.takeWhile_cons, hx, if_true]
    have := ih (fun c hc => ha c (by simp [hc]))
    simp_all

theorem counterChars_generate_element_id (stem element_name element_type : String)
    (c : Nat) :
    counterChars (generate_element_id stem element_name element_type c).1 =
      (natDigits (c + 1)).reverse := by
  unfold counterChars generate_element_id natRepr
  have hdata :
      (stem ++ "_" ++ element_type ++ "_" ++ element_name ++ "_" ++
          (⟨natDigits (c + 1)⟩ : String)).data =
        (stem.data ++ '_' :: element_type.data ++ '_' :: element_name.data ++ ['_'])
          ++ natDigits (c + 1) := by
    simp [String.data_append]
  rw [hdata, List.reverse_append]
  have hall : ∀ ch ∈ (natDigits (c + 1)).reverse, (ch != '_') = true := by
    intro ch hch
    have := natDigits_ne_underscore (c + 1) ch (List.mem_reverse.mp hch)
    simpa using this
  have hrev :
      (stem.data ++ '_' :: element_type.data ++ '_' :: element_name.data ++ ['_']).reverse
        = '_' :: (element_name.data.reverse ++ '_' :: element_type.data.reverse
            ++ '_' :: stem.data.reverse) := by
    simp
  rw [hrev]
  exact takeWhile_append_stop _ _ hall (by simp)

/-- The counter value is recoverable from the id, so ids generated at
distinct counter values are distinct strings. -/
theorem generate_element_id_ne_of_counter_ne
    {stem₁ name₁ type₁ stem₂ name₂ type₂ : String} {c₁ c₂ : Nat} (h : c₁ ≠ c₂) :
    (generate_element_id stem₁ name₁ type₁ c₁).1 ≠
      (generate_element_id stem₂ name₂ type₂ c₂).1 := by
  intro heq
  apply h
  have h1 := counterChars_generate_element_id stem₁ name₁ type₁ c₁
  have h2 := counterChars_generate_element_id stem₂ name₂ type₂ c₂
  rw [heq] at h1
  have : (natDigits (c₁ + 1)).reverse = (natDigits (c₂ + 1)).reverse := h1.symm.trans h2
  have := natDigits_injective _ _ (List.reverse_injective this)
  omega

theorem counterTag_injective : Function.Injective counterTag := by
  intro a b h
  exact natDigits_injective a b (List.reverse_injective h)

theorem range'_append_one (a m K : Nat) :
    List.range' a m ++ List.range' (a + m) K = List.range' a (m + K) := by
  have h := List.range'_append a m K 1
  simp only [Nat.one_mul, Nat.mul_one] at h
  rw [Nat.add_comm K m] at h
  exact h

theorem emitElements_counter (stem : String) (lang : Lang) :
    ∀ (ds : List Decl) (c : Nat),
      (emitElements stem lang ds c).2 = c + ds.length ∧
      (∀ e ∈ (emitElements stem lang ds c).1, e.language = lang) ∧
      (emitElements stem lang ds c).1.map (fun e => counterChars e.id) =
        (List.range' (c + 1) ds.length).map counterTag := by
  intro ds
  induction ds with
  | nil => intro c; simp [emitElements]
  | cons d ds ih =>
    intro c
    obtain ⟨h1, h2, h3⟩ := ih (c + 1)
    have hc2 : (generate_element_id stem d.element_name d.element_type c).2 = c + 1 := rfl
    refine ⟨?_, ?_, ?_⟩
    · simp only [emitElements, hc2, h1, List.length_cons]
      omega
    · intro e he
      simp only [emitElements, List.mem_cons] at he
      rcases he with he | he
      · rw [he]
      · exact h2 e (by rw [← hc2]; exact he)
    · simp only [emitElements, List.map_cons, List.length_cons, List.range'_succ, hc2, h3,
        counterChars_generate_element_id]
      rfl

theorem parse_file_counter (f : SourceFile) (c : Nat) :
    ∃ K, (parse_file f c).2 = c + K ∧
      (∀ e ∈ (parse_file f c).1, e.language = f.lang) ∧
      (parse_file f c).1.map (fun e => counterChars e.id) =
        (List.range' (c + 1) K).map counterTag := by
  unfold parse_file
  by_cases hp : f.parse_ok
  · simp only [hp, if_true]
    exact ⟨_, emitElements_counter f.stem f.lang _ c⟩
  · exact ⟨0, by simp [hp]⟩

/-- Counter bookkeeping for the whole parse loop: for every language `ℓ`, the
ids of the `ℓ`-elements of the run carry exactly the consecutive counter
values from `s ℓ + 1` up to the final counter of `ℓ`'s parser. -/
theorem analyzeFiles_lang_counters (fs : List SourceFile) :
    ∀ (s : Lang → Nat) (ℓ : Lang),
      ∃ K, (analyzeFiles s fs).2 ℓ = s ℓ + K ∧
        ((analyzeFiles s fs).1.filter (fun e => decide (e.language = ℓ))).map
            (fun e => counterChars e.id) =
          (List.range' (s ℓ + 1) K).map counterTag := by
  induction fs with
  | nil => intro s ℓ; exact ⟨0, by simp [analyzeFiles]⟩
  | cons f fs ih =>
    intro s ℓ
    obtain ⟨m, hm, hlang, hids⟩ := parse_file_counter f (s f.lang)
    obtain ⟨K, hK, hmapK⟩ := ih (Function.update s f.lang (parse_file f (s f.lang)).2) ℓ
    by_cases hℓ : f.lang = ℓ
    · subst hℓ
      refine ⟨m + K, ?_, ?_⟩
      · simp only [analyzeFiles]
        rw [hK, Function.update_same, hm]
        omega
      · simp only [analyzeFiles, List.filter_append, List.map_append]
        have hfirst :
            (parse_file f (s f.lang)).1.filter (fun e => decide (e.language = f.lang)) =
              (parse_file f (s f.lang)).1 := by
          apply List.filter_eq_self.mpr
          intro e he
          simp [hlang e he]
        rw [hfirst, hids, hmapK, Function.update_same, hm,
          show s f.lang + m + 1 = s f.lang + 1 + m from by omega,
          ← List.map_append, range'_append_one]
    · have hne : ℓ ≠ f.lang := fun h => hℓ h.symm
      refine ⟨K, ?_, ?_⟩
      · simp only [analyzeFiles]
        rw [hK, Function.update_noteq hne]
      · simp only [analyzeFiles, List.filter_append, List.map_append]
        have hfirst :
            (parse_file f (s f.lang)).1.filter (fun e => decide (e.language = ℓ)) = [] := by
          apply List.filter_eq_nil_iff.mpr
          intro e he
          simp [hlang e he, hℓ]
        rw [hfirst, hmapK, Function.update_noteq hne]
        simp

/-- C1 (counterexample): on a tree containing `foo.py` and `foo.js`, one run
emits two distinct elements (a Python module element and a JavaScript module
element) with the identical id `"foo_module_foo_1"`: element ids are **not**
pairwise distinct across files parsed by different language parsers, because
each parser instance has its own `element_counter`. -/
theorem id_uniqueness_fails_across_parsers :
    ¬ (∀ e₁ ∈ (analyzeFiles initialCounters collisionFiles).1,
        ∀ e₂ ∈ (analyzeFiles initialCounters collisionFiles).1,
          e₁ ≠ e₂ → e₁.id ≠ e₂.id) := by
  decide

/-- C1 (amended): within the elements emitted by any single language's parser
the ids are pairwise distinct, for every run and every starting counter
state: the parser's `element_counter` strictly increases with each call of
`generate_element_id` and the id string ends with the decimal numeral of the
counter after an underscore, so ids of one parser embed distinct counters. -/
theorem ids_nodup_per_language (s : Lang → Nat) (fs : List SourceFile) (ℓ : Lang) :
    (((analyzeFiles s fs).1.filter (fun e => decide (e.language = ℓ))).map
      (fun e => e.id)).Nodup := by
  obtain ⟨K, _, hmap⟩ := analyzeFiles_lang_counters fs s ℓ
  have hmm :
      ((((analyzeFiles s fs).1.filter (fun e => decide (e.language = ℓ))).map
        (fun e => e.id)).map counterChars) =
        (List.range' (s ℓ + 1) K).map counterTag := by
    rw [List.map_map]
    exact hmap
  have hrg : (List.range' (s ℓ + 1) K).Nodup := List.nodup_range' (s ℓ + 1) K 1 (by omega)
  have hnd : ((List.range' (s ℓ + 1) K).map counterTag).Nodup :=
    hrg.map counterTag_injective
  rw [← hmm] at hnd
  exact hnd.of_map counterChars

/-- C2 (counterexample): calling `analyze` twice on the same analyzer
instance over the unchanged one-file tree `f.py` yields `"f_module_f_1"` on
the first run but `"f_module_f_2"` on the second: the parser's
`element_counter` is never reset, so element ids are not reproduced. -/
theorem rerun_same_instance_changes_ids :
    (analyzeFiles (analyzeFiles initialCounters rerunFiles).2 rerunFiles).1 ≠
      (analyzeFiles initialCounters rerunFiles).1 := by
  decide

/-- C2 (amended): analysis output is a function of the file list and the
parser-counter state alone, so re-running with a **fresh** analyzer (counters
reset to zero) reproduces the ids exactly; but two successive `analyze` calls
on the **same** instance never reproduce them: whenever the first run emits
any element, the second run's element list differs, because the counters
persist across calls. -/
theorem rerun_determinism_and_counter_persistence :
    (∀ (fs : List SourceFile) (s₁ s₂ : Lang → Nat), s₁ = s₂ →
      (analyzeFiles s₁ fs).1 = (analyzeFiles s₂ fs).1) ∧
    (∀ fs : List SourceFile, (analyzeFiles initialCounters fs).1 ≠ [] →
      (analyzeFiles (analyzeFiles initialCounters fs).2 fs).1 ≠
        (analyzeFiles initialCounters fs).1) := by
  constructor
  · intro fs s₁ s₂ h
    rw [h]
  · intro fs hne heq
    obtain ⟨e, he⟩ := List.exists_mem_of_ne_nil _ hne
    obtain ⟨K, hK, hmap⟩ := analyzeFiles_lang_counters fs initialCounters e.language
    obtain ⟨K', hK', hmap'⟩ :=
      analyzeFiles_lang_counters fs (analyzeFiles initialCounters fs).2 e.language
    have hKpos : K ≠ 0 := by
      intro h0
      subst h0
      have hmem : e ∈ (analyzeFiles initialCounters fs).1.filter
          (fun x => decide (x.language = e.language)) :=
        List.mem_filter.mpr ⟨he, by simp⟩
      have hlen := congrArg List.length hmap
      simp only [List.length_map, List.length_range'] at hlen
      have hnil : (analyzeFiles initialCounters fs).1.filter
          (fun x => decide (x.language = e.language)) = [] :=
        List.eq_nil_of_length_eq_zero hlen
      rw [hnil] at hmem
      exact absurd hmem (List.not_mem_nil e)
    rw [heq] at hmap'
    have hinit : initialCounters e.language = 0 := rfl
    rw [hinit] at hK hmap
    rw [hK] at hmap'
    have hheads := congrArg List.head? (hmap.symm.trans hmap')
    cases K with
    | zero => exact hKpos rfl
    | succ k =>
      cases K' with
      | zero =>
        rw [List.range'_succ] at hheads
        simp at hheads
      | succ k' =>
        rw [List.range'_succ, List.range'_succ] at hheads
        simp only [List.map_cons, List.head?_cons, Option.some.injEq] at hheads
        have := counterTag_injective hheads
        omega

/-- C3: the only error `CodebaseAnalyzer.analyze` lets escape is the
root-path check raised before any extraction; and a file whose parse raises
contributes no elements and leaves the run (including the parser counters)
exactly as if the file were absent, wherever it sits in the file list. -/
theorem analyze_error_only_for_missing_root :
    (∀ (path_exists : Bool) (s : Lang → Nat) (fs : List SourceFile),
      (∃ msg, CodebaseAnalyzer.analyze path_exists s fs = .error msg) ↔ path_exists = false) ∧
    (∀ (s : Lang → Nat) (pre post : List SourceFile) (f : SourceFile),
      f.parse_ok = false →
        analyzeFiles s (pre ++ f :: post) = analyzeFiles s (pre ++ post)) := by
  constructor
  · intro path_exists s fs
    cases path_exists <;> simp [CodebaseAnalyzer.analyze]
  · intro s pre post f hf
    induction pre generalizing s with
    | nil =>
      simp [analyzeFiles, parse_file, hf, Function.update_eq_self]
    | cons g pre ih =>
      rw [List.cons_append, List.cons_append]
      simp only [analyzeFiles]
      rw [ih]

/-- Witness for `analyze_error_only_for_missing_root` at a concrete run: a
tree with `a.py` parsing fine and `b.py` failing to parse produces the same
elements and counters as the tree without `b.py`, and an existing root makes
`analyze` return `.ok`. -/
theorem analyze_error_only_for_missing_root_witness :
    analyzeFiles initialCounters
        ([{ stem := "a", lang := .python, parse_ok := true, decls := [] }] ++
          { stem := "b", lang := .python, parse_ok := false, decls := [] } :: []) =
      analyzeFiles initialCounters
        ([{ stem := "a", lang := .python, parse_ok := true, decls := [] }] ++ []) :=
  analyze_error_only_for_missing_root.2 initialCounters
    [{ stem := "a", lang := .python, parse_ok := true, decls := [] }] []
    { stem := "b", lang := .python, parse_ok := false, decls := [] } rfl

/-- Witness for `rerun_determinism_and_counter_persistence` at the concrete
one-file tree: its first run emits an element, hence the theorem makes the
two successive runs differ there. -/
theorem rerun_determinism_and_counter_persistence_witness :
    (analyzeFiles (analyzeFiles initialCounters rerunFiles).2 rerunFiles).1 ≠
      (analyzeFiles initialCounters rerunFiles).1 :=
  rerun_determinism_and_counter_persistence.2 rerunFiles (by decide)

theorem triangle_scc :
    NxDiGraph.stronglyConnectedComponents triangleGraph = [["A", "B", "C"]] := by
  decide

theorem triangle_cohesion_val :
    DependencyGraph.calculate_cohesion ["A", "B", "C"] triangleGraph = 1 / 2 := by
  have hsum : ((["A", "B", "C"]).map (fun node =>
      (triangleGraph.neighbors node).countP
        (fun m => decide (m ∈ ["A", "B", "C"])))).sum = 3 := by decide
  simp only [DependencyGraph.calculate_cohesion, hsum]
  norm_num

theorem triangle_boundaries :
    DependencyGraph.detect_service_boundaries triangleGraph =
      [{ name := "Service_" ++ natRepr 1, elements := ["A", "B", "C"],
         cohesion_score := DependencyGraph.calculate_cohesion ["A", "B", "C"] triangleGraph,
         coupling_score := DependencyGraph.calculate_coupling ["A", "B", "C"] triangleGraph }] := by
  rw [DependencyGraph.detect_service_boundaries, triangle_scc]
  rfl

/-- C4 (counterexample): the boundary `{A,B,C}` detected on the dependency
triangle contains `3` internal relationships, so the claimed formula
`min(1.0, internal/(n·(n−1)/2)) = min(1, 3/3) = 1.0`; its actual cohesion
score is `1/2`, because `DependencyGraph._calculate_cohesion` divides the
directed internal edge count by `n·(n−1)`, not `n·(n−1)/2`. -/
theorem cohesion_formula_fails_for_graph_boundary :
    ∃ b ∈ DependencyGraph.detect_service_boundaries triangleGraph,
      b.elements = ["A", "B", "C"] ∧ b.cohesion_score = 1 / 2 ∧
      b.cohesion_score ≠ min 1 ((3 : ℚ) / ((3 * (3 - 1)) / 2)) := by
  refine ⟨{ name := "Service_" ++ natRepr 1, elements := ["A", "B", "C"],
            cohesion_score := DependencyGraph.calculate_cohesion ["A", "B", "C"] triangleGraph,
            coupling_score := DependencyGraph.calculate_coupling ["A", "B", "C"] triangleGraph },
          ?_, rfl, triangle_cohesion_val, ?_⟩
  · rw [triangle_boundaries]
    exact List.mem_singleton.mpr rfl
  · rw [triangle_cohesion_val]
    norm_num

/-- C4 (amended): `ServiceDetector._calculate_cohesion` does satisfy the
claimed formula — `min(1.0, internal-relationship count / (n·(n−1)/2))` for
`n ≥ 2` and exactly `1.0` for `n ≤ 1` — while
`DependencyGraph._calculate_cohesion`, used on the graph-builder's detected
boundaries, divides the directed internal edge count by `n·(n−1)` and applies
no cap. -/
theorem cohesion_score_formulas :
    (∀ (elements : List CodeElement) (relationships : List Relationship),
      2 ≤ elements.length →
        ServiceDetector.calculate_cohesion elements relationships =
          min 1 ((relationships.countP (fun rel =>
              decide (rel.source_id ∈ elements.map (fun e => e.id) ∧
                rel.target_id ∈ elements.map (fun e => e.id))) : ℚ) /
            ((elements.length : ℚ) * ((elements.length : ℚ) - 1) / 2))) ∧
    (∀ (elements : List CodeElement) (relationships : List Relationship),
      elements.length ≤ 1 →
        ServiceDetector.calculate_cohesion elements relationships = 1) ∧
    (∀ (community : List String) (g : NxDiGraph),
      2 ≤ community.length →
        DependencyGraph.calculate_cohesion community g =
          ((community.map (fun node => (g.neighbors node).countP
              (fun m => decide (m ∈ community)))).sum : ℚ) /
            ((community.length : ℚ) * ((community.length : ℚ) - 1))) := by
  refine ⟨?_, ?_, ?_⟩
  · intro elements relationships h2
    simp only [ServiceDetector.calculate_cohesion]
    rw [if_neg (by omega)]
    have hn : (2 : ℚ) ≤ (elements.length : ℚ) := by exact_mod_cast h2
    have hpos : (0 : ℚ) < (elements.length : ℚ) * ((elements.length : ℚ) - 1) / 2 := by
      apply div_pos
      · exact mul_pos (by linarith) (by linarith)
      · norm_num
    rw [if_pos hpos]
  · intro elements relationships h1
    simp only [ServiceDetector.calculate_cohesion]
    rw [if_pos h1]
  · intro community g h2
    simp only [DependencyGraph.calculate_cohesion]
    rw [if_neg (by omega)]
    have hn : (2 : ℚ) ≤ (community.length : ℚ) := by exact_mod_cast h2
    have hpos : (0 : ℚ) < (community.length : ℚ) * ((community.length : ℚ) - 1) :=
      mul_pos (by linarith) (by linarith)
    rw [if_pos hpos]

/-- Witness for `cohesion_score_formulas` on the concrete two-element group:
its cohesion score is the claimed ratio. -/
theorem cohesion_score_formulas_witness :
    ServiceDetector.calculate_cohesion pairElements pairRelationships =
      min 1 ((pairRelationships.countP (fun rel =>
          decide (rel.source_id ∈ pairElements.map (fun e => e.id) ∧
            rel.target_id ∈ pairElements.map (fun e => e.id))) : ℚ) /
        ((pairElements.length : ℚ) * ((pairElements.length : ℚ) - 1) / 2)) :=
  cohesion_score_formulas.1 pairElements pairRelationships (by decide)

theorem inflow_scc :
    NxDiGraph.stronglyConnectedComponents inflowGraph = [["a", "b"], ["c"]] := by
  decide

theorem inflow_coupling_ab :
    DependencyGraph.calculate_coupling ["a", "b"] inflowGraph = 0 := by
  have hext : ((["a", "b"]).map (fun node =>
      (inflowGraph.neighbors node).countP (fun m => decide (m ∉ ["a", "b"])))).sum = 0 := by
    decide
  have htot : ((["a", "b"]).map (fun node => (inflowGraph.neighbors node).length)).sum = 2 := by
    decide
  simp only [DependencyGraph.calculate_coupling, hext, htot]
  norm_num

theorem inflow_boundaries :
    DependencyGraph.detect_service_boundaries inflowGraph =
      [{ name := "Service_" ++ natRepr 1, elements := ["a", "b"],
         cohesion_score := DependencyGraph.calculate_cohesion ["a", "b"] inflowGraph,
         coupling_score := DependencyGraph.calculate_coupling ["a", "b"] inflowGraph },
       { name := "Service_" ++ natRepr 2, elements := ["c"],
         cohesion_score := DependencyGraph.calculate_cohesion ["c"] inflowGraph,
         coupling_score := DependencyGraph.calculate_coupling ["c"] inflowGraph }] := by
  rw [DependencyGraph.detect_service_boundaries, inflow_scc]
  rfl

/-- C5 (counterexample): the boundary `{a,b}` detected on `inflowGraph` is
crossed by exactly one relationship (`c→a`), so the claimed formula gives
`min(1.0, 1/max(1,2)) = 1/2`; its actual coupling score is `0.0`, because
`DependencyGraph._calculate_coupling` only counts out-edges of the community,
and both out-edges of `{a,b}` stay inside it. -/
theorem coupling_formula_fails_for_graph_boundary :
    ∃ b ∈ DependencyGraph.detect_service_boundaries inflowGraph,
      b.elements = ["a", "b"] ∧ b.coupling_score = 0 ∧
      b.coupling_score ≠ min 1 ((1 : ℚ) / ((max 1 2 : ℕ) : ℚ)) := by
  refine ⟨{ name := "Service_" ++ natRepr 1, elements := ["a", "b"],
            cohesion_score := DependencyGraph.calculate_cohesion ["a", "b"] inflowGraph,
            coupling_score := DependencyGraph.calculate_coupling ["a", "b"] inflowGraph },
          ?_, rfl, inflow_coupling_ab, ?_⟩
  · rw [inflow_boundaries]
    exact List.mem_cons_self _ _
  · rw [inflow_coupling_ab]
    norm_num

/-- C5 (amended): `ServiceDetector._calculate_coupling` does satisfy the
claimed formula `min(1.0, boundary-crossing count / max(1, n))` — in
particular a group touched by no relationship scores exactly `0.0` — while
`DependencyGraph._calculate_coupling`, used on the graph-builder's detected
boundaries, is the fraction of the community's own out-edges that leave it
and ignores incoming edges. -/
theorem coupling_score_formulas :
    (∀ (elements : List CodeElement) (relationships : List Relationship),
      ServiceDetector.calculate_coupling elements relationships =
        min 1 ((relationships.countP (fun rel =>
            decide ((rel.source_id ∈ elements.map (fun e => e.id) ∧
                rel.target_id ∉ elements.map (fun e => e.id)) ∨
              (rel.target_id ∈ elements.map (fun e => e.id) ∧
                rel.source_id ∉ elements.map (fun e => e.id)))) : ℚ) /
          ((max 1 elements.length : ℕ) : ℚ))) ∧
    (∀ (elements : List CodeElement) (relationships : List Relationship),
      (∀ rel ∈ relationships,
          rel.source_id ∉ elements.map (fun e => e.id) ∧
          rel.target_id ∉ elements.map (fun e => e.id)) →
        ServiceDetector.calculate_coupling elements relationships = 0) := by
  constructor
  · intro elements relationships
    by_cases h0 : elements.length = 0
    · have helems : elements = [] := List.eq_nil_of_length_eq_zero h0
      subst helems
      have hcnt : relationships.countP (fun rel =>
          decide ((rel.source_id ∈ ([] : List CodeElement).map (fun e => e.id) ∧
              rel.target_id ∉ ([] : List CodeElement).map (fun e => e.id)) ∨
            (rel.target_id ∈ ([] : List CodeElement).map (fun e => e.id) ∧
              rel.source_id ∉ ([] : List CodeElement).map (fun e => e.id)))) = 0 := by
        apply List.countP_eq_zero.mpr
        intro rel _
        simp
      simp only [ServiceDetector.calculate_coupling, List.map_nil, List.length_nil, hcnt]
      norm_num
    · simp only [ServiceDetector.calculate_coupling]
      rw [if_neg h0]
      have hmax : max 1 elements.length = elements.length := by omega
      rw [hmax]
  · intro elements relationships hnone
    by_cases h0 : elements.length = 0
    · simp only [ServiceDetector.calculate_coupling]
      rw [if_pos h0]
    · simp only [ServiceDetector.calculate_coupling]
      rw [if_neg h0]
      have hcnt : relationships.countP (fun rel =>
          decide ((rel.source_id ∈ elements.map (fun e => e.id) ∧
              rel.target_id ∉ elements.map (fun e => e.id)) ∨
            (rel.target_id ∈ elements.map (fun e => e.id) ∧
              rel.source_id ∉ elements.map (fun e => e.id)))) = 0 := by
        apply List.countP_eq_zero.mpr
        intro rel hrel
        have := hnone rel hrel
        simp [this.1, this.2]
      rw [hcnt]
      norm_num

/-- Witness for `coupling_score_formulas` at a concrete group touched by no
relationship: coupling is exactly `0`. -/
theorem coupling_score_formulas_witness :
    ServiceDetector.calculate_coupling pairElements strayRelationships = 0 :=
  coupling_score_formulas.2 pairElements strayRelationships (by decide)

/-- C6: the maintainability index equals
`max(0, 100 − (2·avg_complexity + 3·avg_coupling))` for every analysis
result, and instantiating the formula at average complexity `5` and average
coupling `4` gives exactly `78`.  (In the code as written the per-element
complexity attribute is always the default `1`, so an average of `5` never
actually arises; the formula itself is as claimed.) -/
theorem maintainability_index_correct :
    (∀ (elements : List CodeElement) (relationships : List Relationship),
      MetricsCalculator.calculate_maintainability_metrics elements relationships =
        max 0 (100 - (2 * MetricsCalculator.cyclomatic_complexity_avg elements +
          3 * (MetricsCalculator.afferent_coupling_avg relationships +
            MetricsCalculator.efferent_coupling_avg relationships)))) ∧
    MetricsCalculator.maintainability_index_formula 5 4 = 78 := by
  constructor
  · intro elements relationships
    unfold MetricsCalculator.calculate_maintainability_metrics
      MetricsCalculator.maintainability_index_formula
    congr 1
    ring
  · unfold MetricsCalculator.maintainability_index_formula
    norm_num

/-- C7: on the graph with nodes `A, B, C` and edges `A→B, B→C, C→A`,
dependency analysis reports exactly one elementary cycle, of length 3
(`[A,B,C]` up to rotation), and exactly one strongly connected component
with more than one member, namely `{A,B,C}`. -/
theorem triangle_dependency_analysis :
    (DependencyAnalyzer.analyze triangleElements triangleRelationships).cycles.length = 1 ∧
    (∀ c ∈ (DependencyAnalyzer.analyze triangleElements triangleRelationships).cycles,
      c.length = 3) ∧
    (DependencyAnalyzer.analyze triangleElements
        triangleRelationships).strongly_connected_components.filter
      (fun c => decide (1 < c.length)) = [["A", "B", "C"]] := by
  refine ⟨by decide, by decide, by decide⟩

theorem godObjectData_god_block (all : List CodeElement) (scan : List CodeElement) :
    (scan.filterMap (fun e =>
      if e.type = ElementType.CLASS then
        if 20 < methodsInFileCount all e then
          some (AntiPattern.god_object e.id e.name (methodsInFileCount all e))
        else none
      else none)).filterMap AntiPattern.godObjectData =
    (scan.filter (fun e => decide (e.type = ElementType.CLASS) &&
        decide (20 < methodsInFileCount all e))).map
      (fun e => (e.id, e.name, methodsInFileCount all e)) := by
  induction scan with
  | nil => rfl
  | cons e rest ih =>
    by_cases hc : e.type = ElementType.CLASS
    · by_cases hm : 20 < methodsInFileCount all e
      · simp [hc, hm, ih, AntiPattern.godObjectData]
      · simp [hc, hm, ih]
    · simp [hc, ih]

theorem godObjectData_circular_block (dg : Option DependencyGraphResult) :
    (circular_dependency_entries dg).filterMap AntiPattern.godObjectData = [] := by
  cases dg with
  | none => rfl
  | some g =>
    show (g.cycles.map (fun c => AntiPattern.circular_dependency c)).filterMap
      AntiPattern.godObjectData = []
    induction g.cycles with
    | nil => rfl
    | cons c rest ih => simp [AntiPattern.godObjectData, ih]

theorem godObjectData_high_coupling_block (boundaries : List ServiceBoundary) :
    (high_coupling_entries boundaries).filterMap AntiPattern.godObjectData = [] := by
  induction boundaries with
  | nil => rfl
  | cons s rest ih =>
    by_cases h : (8 : ℚ) / 10 < s.coupling_score
    · simpa [high_coupling_entries, h, AntiPattern.godObjectData] using ih
    · simpa [high_coupling_entries, h] using ih

/-- C8: the god-object entries of an anti-pattern report are exactly one
entry per class element sharing its file with more than 20 method elements
(naming that class and its method count); in particular, on an analysis
result with one class and 25 methods in its file, the report is exactly one
`god_object` entry naming that class. -/
theorem god_object_detection :
    (∀ result : AnalysisResult,
      (ServiceDetector.detect_anti_patterns result).filterMap AntiPattern.godObjectData =
        (result.elements.filter (fun e => decide (e.type = ElementType.CLASS) &&
            decide (20 < methodsInFileCount result.elements e))).map
          (fun e => (e.id, e.name, methodsInFileCount result.elements e))) ∧
    ServiceDetector.detect_anti_patterns godObjectScenario =
      [AntiPattern.god_object "Big" "Big" 25] := by
  constructor
  · intro result
    unfold ServiceDetector.detect_anti_patterns
    rw [List.filterMap_append, List.filterMap_append]
    rw [show (god_object_entries result.elements).filterMap AntiPattern.godObjectData =
        (result.elements.filter (fun e => decide (e.type = ElementType.CLASS) &&
            decide (20 < methodsInFileCount result.elements e))).map
          (fun e => (e.id, e.name, methodsInFileCount result.elements e)) from
      godObjectData_god_block result.elements result.elements,
      godObjectData_circular_block, godObjectData_high_coupling_block]
    simp
  · decide

/-- C9 (counterexample): `repoBoundary` passes the microservice filter, yet
`detect_microservices` does not return it unchanged: the returned boundary
has `type = API_SERVICE` instead of its computed `DATA_SERVICE` (the loop
mutates `service.type` before appending). -/
theorem detect_microservices_not_unchanged :
    ServiceDetector.is_microservice repoBoundary = true ∧
    ServiceDetector.detect_microservices [repoBoundary] ≠ [repoBoundary] := by
  have hq : ServiceDetector.is_microservice repoBoundary = true := by
    simp only [ServiceDetector.is_microservice, repoBoundary, Bool.and_eq_true,
      decide_eq_true_eq]
    norm_num
  refine ⟨hq, ?_⟩
  intro heq
  rw [show ServiceDetector.detect_microservices [repoBoundary] =
      [{ repoBoundary with type := ServiceType.API_SERVICE }] from by
    simp [ServiceDetector.detect_microservices, hq]] at heq
  have h2 : ({ repoBoundary with type := ServiceType.API_SERVICE } : ServiceBoundary) =
      repoBoundary := by
    injection heq
  have h3 := congrArg ServiceBoundary.type h2
  exact ServiceType.noConfusion h3

/-- C9 (amended): `detect_microservices` returns exactly the boundaries
satisfying the claimed criteria (cohesion > 0.7, coupling < 0.3, element
count > 5, at least one external dependency), but each returned boundary is
the computed boundary with its `type` overwritten to `API_SERVICE`, not the
boundary unchanged. -/
theorem detect_microservices_filters_and_retypes (services : List ServiceBoundary) :
    ServiceDetector.detect_microservices services =
      (services.filter ServiceDetector.is_microservice).map
        (fun s => { s with type := ServiceType.API_SERVICE }) := by
  induction services with
  | nil => rfl
  | cons s rest ih =>
    by_cases h : ServiceDetector.is_microservice s
    · simp [ServiceDetector.detect_microservices, h, ih]
    · simp [ServiceDetector.detect_microservices, h, ih]

/-- C10: on any file parsed by `ast.parse` — whose nodes carry no `parent`
attribute, as nothing in the parser sets one — the Python parser never emits
a `METHOD`-typed element, and every `FunctionDef` node (even one nested in a
class body) becomes a `FUNCTION`-typed element. -/
theorem python_parser_never_emits_method (walked : List PyWalkNode)
    (hstd : ∀ n ∈ walked, n.parentAttr = none) :
    ElementType.METHOD ∉ PythonParser.parsed_element_types walked ∧
    (∀ n ∈ walked, n.kind = PyNodeKind.FunctionDef →
      PythonParser.node_to_element_type n = some ElementType.FUNCTION) := by
  have hfun : ∀ n ∈ walked, n.kind = PyNodeKind.FunctionDef →
      PythonParser.node_to_element_type n = some ElementType.FUNCTION := by
    intro n hn hk
    have hp := hstd n hn
    unfold PythonParser.node_to_element_type PythonParser.is_method
    rw [hk, hp]
    rfl
  refine ⟨?_, hfun⟩
  intro hmem
  unfold PythonParser.parsed_element_types at hmem
  rcases List.mem_cons.mp hmem with h | h
  · exact ElementType.noConfusion h
  · obtain ⟨n, hn, hne⟩ := List.mem_filterMap.mp h
    have hp := hstd n hn
    unfold PythonParser.node_to_element_type PythonParser.is_method at hne
    cases hk : n.kind <;> rw [hk] at hne <;> rw [hp] at hne <;> simp_all

/-- Witness for `python_parser_never_emits_method`: a concrete walked list
with a top-level function, a class, and a function lexically inside the
class body (all without `parent` attributes, as `ast.parse` leaves them). -/
theorem python_parser_never_emits_method_witness :
    ElementType.METHOD ∉ PythonParser.parsed_element_types
      [{ kind := PyNodeKind.FunctionDef, name := "f", parentAttr := none },
       { kind := PyNodeKind.ClassDef, name := "C", parentAttr := none },
       { kind := PyNodeKind.FunctionDef, name := "g", parentAttr := none }] ∧
    (∀ n ∈ [({ kind := PyNodeKind.FunctionDef, name := "f", parentAttr := none } : PyWalkNode),
            { kind := PyNodeKind.ClassDef, name := "C", parentAttr := none },
            { kind := PyNodeKind.FunctionDef, name := "g", parentAttr := none }],
      n.kind = PyNodeKind.FunctionDef →
        PythonParser.node_to_element_type n = some ElementType.FUNCTION) :=
  python_parser_never_emits_method
    [{ kind := PyNodeKind.FunctionDef, name := "f", parentAttr := none },
     { kind := PyNodeKind.ClassDef, name := "C", parentAttr := none },
     { kind := PyNodeKind.FunctionDef, name := "g", parentAttr := none }]
    (by decide)

end Architex

